import Mathlib

/-!
Verification of the mcp-server-llmling orchestration core.

This file gives a shallow embedding, in Lean 4, of the control-plane gateway
(`injection/routes.py`), the notification dispatcher (`server.py`), the
registry observers (`observers.py`) and the shutdown sequence of
`LLMLingServer`, and proves the behavioural properties stated about them.

External collaborators (the llmling runtime registries, pydantic validation,
the MCP session) are modelled as parameters: a registration or validation
step is a function that either returns an updated state or an error message,
exactly matching the places where `routes.py` calls out into the runtime.
-/

/-! Section: response models, from injection.py and injection/routes.py -/

/-- The `status` literal of a component response: "success" or "error". -/
inductive RStatus where
  | success
  | error
deriving DecidableEq, Repr

/-- The `component_type` literal: "resource", "tool" or "prompt". -/
inductive CType where
  | resource
  | tool
  | prompt
deriving DecidableEq, Repr

/-- The `ComponentResponse` model: status, message, component_type and name. -/
structure ComponentResponse where
  status : RStatus
  message : String
  component_type : CType
  name : String
deriving DecidableEq, Repr

/-- Modelled from the spec: `SuccessResponse` lives in the missing
`injection/models.py`; per the success-outcome shape in the spec (and the inline
`ComponentResponse(status="success", ...)` constructions of `injection.py`)
it is a `ComponentResponse` whose status is fixed to success. -/
def SuccessResponse (message : String) (component_type : CType) (name : String) :
    ComponentResponse :=
  ⟨.success, message, component_type, name⟩

/-- Modelled from the spec: `ErrorResponse` lives in the missing
`injection/models.py`; it is a `ComponentResponse` whose status is fixed to
error, as in the inline constructions of `injection.py`. -/
def ErrorResponse (message : String) (component_type : CType) (name : String) :
    ComponentResponse :=
  ⟨.error, message, component_type, name⟩

/-- The aggregate `summary dictionary with the success and error counters` dictionary. -/
structure Summary where
  success : Nat
  error : Nat
deriving DecidableEq, Repr

/-- The `BulkUpdateResponse` model: per-item results plus the aggregate summary. -/
structure BulkUpdateResponse where
  results : List ComponentResponse
  summary : Summary
deriving DecidableEq, Repr

/-- The `ConfigUpdateRequest` model: optional resource and tool mappings (whose
insertion order is kept, so they are association lists here) and the
`replace_existing` flag. -/
structure ConfigUpdateRequest (ρ τ : Type) where
  resources : Option (List (String × ρ))
  tools : Option (List (String × τ))
  replace_existing : Bool

/-- A registration call into the llmling runtime
(`register_resource` / `_tool_registry.register`): given the registry state,
a name, a value and the replace flag, it either returns the new state or
raises (modelled as an error message, the `str(e)` of the exception). -/
def RegFn (σ α : Type) : Type := σ → String → α → Bool → Except String σ

/-! Section: bulk_update, the POST /bulk-update endpoint of routes.py -/

/-- One loop of `bulk_update`: try to register each item in presentation
order, appending a success or error `ComponentResponse` per item and bumping
the matching summary counter; a failed item never aborts the remaining
items. `kindWord` is "Resource" or "Tool" as used in the success message. -/
def applyItems {σ α : Type} (reg : RegFn σ α) (ct : CType) (kindWord : String)
    (replace : Bool) (items : List (String × α)) (st : σ)
    (responses : List ComponentResponse) (summary : Summary) :
    σ × List ComponentResponse × Summary :=
  match items with
  | [] => (st, responses, summary)
  | (name, item) :: rest =>
    match reg st name item replace with
    | .ok st2 =>
      applyItems reg ct kindWord replace rest st2
        (responses ++ [SuccessResponse (kindWord ++ " " ++ name ++ " registered") ct name])
        { summary with success := summary.success + 1 }
    | .error e =>
      applyItems reg ct kindWord replace rest st
        (responses ++ [ErrorResponse e ct name])
        { summary with error := summary.error + 1 }

/-- The `bulk_update` endpoint body: resources first, then tools, both through
the same per-item loop, returning the final registry state together with the
`BulkUpdateResponse`. A `None`/absent mapping contributes no items, matching
the Python truthiness guard. -/
def bulk_update {σ ρ τ : Type} (regRes : RegFn σ ρ) (regTool : RegFn σ τ)
    (request : ConfigUpdateRequest ρ τ) (st : σ) : σ × BulkUpdateResponse :=
  let r1 := applyItems regRes .resource "Resource" request.replace_existing
    (request.resources.getD []) st [] ⟨0, 0⟩
  let r2 := applyItems regTool .tool "Tool" request.replace_existing
    (request.tools.getD []) r1.1 r1.2.1 r1.2.2
  (r2.1, ⟨r2.2.1, r2.2.2⟩)

/-- Whether a response entry is a success entry. -/
def isSuccessEntry (r : ComponentResponse) : Bool :=
  decide (r.status = RStatus.success)

/-- Whether a response entry is an error entry. -/
def isErrorEntry (r : ComponentResponse) : Bool :=
  decide (r.status = RStatus.error)

/-- Unfolding lemma for `applyItems`: the accumulated responses extend the
incoming ones by exactly one entry per item, in item order, with the summary
counters counting exactly the success and error entries among the new ones. -/
theorem applyItems_appends {σ α : Type} (reg : RegFn σ α) (ct : CType)
    (kindWord : String) (replace : Bool) (items : List (String × α)) (st : σ)
    (responses : List ComponentResponse) (summary : Summary) :
    ∃ fresh : List ComponentResponse,
      (applyItems reg ct kindWord replace items st responses summary).2.1
        = responses ++ fresh ∧
      fresh.length = items.length ∧
      fresh.map (fun r => r.name) = items.map Prod.fst ∧
      (applyItems reg ct kindWord replace items st responses summary).2.2.success
        = summary.success + fresh.countP isSuccessEntry ∧
      (applyItems reg ct kindWord replace items st responses summary).2.2.error
        = summary.error + fresh.countP isErrorEntry := by
  induction items generalizing st responses summary with
  | nil =>
    exact ⟨[], by simp [applyItems]⟩
  | cons hd tl ih =>
    obtain ⟨name, item⟩ := hd
    cases hreg : reg st name item replace with
    | ok st2 =>
      obtain ⟨fresh, h1, h2, h3, h4, h5⟩ := ih st2
        (responses ++ [SuccessResponse (kindWord ++ " " ++ name ++ " registered") ct name])
        { summary with success := summary.success + 1 }
      refine ⟨SuccessResponse (kindWord ++ " " ++ name ++ " registered") ct name :: fresh,
        ?_, ?_, ?_, ?_, ?_⟩
      · simpa [applyItems, hreg, List.append_assoc] using h1
      · simp [applyItems, hreg, h2]
      · simp [applyItems, hreg, h3, SuccessResponse]
      · simp only [applyItems, hreg]
        rw [h4, List.countP_cons]
        simp [isSuccessEntry, SuccessResponse]
        omega
      · simp only [applyItems, hreg]
        rw [h5, List.countP_cons]
        simp [isErrorEntry, SuccessResponse]
    | error e =>
      obtain ⟨fresh, h1, h2, h3, h4, h5⟩ := ih st
        (responses ++ [ErrorResponse e ct name])
        { summary with error := summary.error + 1 }
      refine ⟨ErrorResponse e ct name :: fresh, ?_, ?_, ?_, ?_, ?_⟩
      · simpa [applyItems, hreg, List.append_assoc] using h1
      · simp [applyItems, hreg, h2]
      · simp [applyItems, hreg, h3, ErrorResponse]
      · simp only [applyItems, hreg]
        rw [h4, List.countP_cons]
        simp [isSuccessEntry, ErrorResponse]
      · simp only [applyItems, hreg]
        rw [h5, List.countP_cons]
        simp [isErrorEntry, ErrorResponse]
        omega

/-- A demo resource for concrete scenarios: registration succeeds exactly
when the `ok` flag is set (an invalid entry makes the runtime registration
raise). -/
structure DemoRes where
  ok : Bool
deriving DecidableEq, Repr

/-- Demo registry state: the association list of registered components. -/
abbrev DemoState := List (String × DemoRes)

/-- Demo resource registration: a valid entry is prepended to the registry
state, an invalid one raises a validation error. -/
def demoRegisterResource : RegFn DemoState DemoRes := fun st name r _replace =>
  if r.ok then .ok ((name, r) :: st) else .error "validation failed"

/-- Demo tool registration (same behaviour as the demo resource one). -/
def demoRegisterTool : RegFn DemoState DemoRes := fun st name r _replace =>
  if r.ok then .ok ((name, r) :: st) else .error "validation failed"

/-- Claim C1: `bulk_update` attempts every item independently and returns a
MutationReport with exactly one result entry per item (in item order, so no
failure aborts the rest), whose summary counts the success and error entries;
in particular a mixed batch of 2 valid and 1 invalid resource entries gives
`summary.success = 2`, `summary.error = 1` and exactly 3 result entries, at
every position of the invalid entry. -/
theorem bulk_update_report_correct {σ ρ τ : Type} (regRes : RegFn σ ρ)
    (regTool : RegFn σ τ) (request : ConfigUpdateRequest ρ τ) (st : σ) :
    ((bulk_update regRes regTool request st).2.results.length
        = (request.resources.getD []).length + (request.tools.getD []).length
      ∧ (bulk_update regRes regTool request st).2.results.map (fun r => r.name)
        = (request.resources.getD []).map Prod.fst
          ++ (request.tools.getD []).map Prod.fst
      ∧ (bulk_update regRes regTool request st).2.summary.success
        = (bulk_update regRes regTool request st).2.results.countP isSuccessEntry
      ∧ (bulk_update regRes regTool request st).2.summary.error
        = (bulk_update regRes regTool request st).2.results.countP isErrorEntry)
    ∧ (∀ batch ∈ [
        [("bad", DemoRes.mk false), ("r1", DemoRes.mk true), ("r2", DemoRes.mk true)],
        [("r1", DemoRes.mk true), ("bad", DemoRes.mk false), ("r2", DemoRes.mk true)],
        [("r1", DemoRes.mk true), ("r2", DemoRes.mk true), ("bad", DemoRes.mk false)]],
        (bulk_update demoRegisterResource demoRegisterTool
            ⟨some batch, none, true⟩ ([] : DemoState)).2.summary = ⟨2, 1⟩
        ∧ (bulk_update demoRegisterResource demoRegisterTool
            ⟨some batch, none, true⟩ ([] : DemoState)).2.results.length = 3) := by
  constructor
  · obtain ⟨fresh1, e1, l1, n1, s1, r1⟩ := applyItems_appends regRes .resource "Resource"
      request.replace_existing (request.resources.getD []) st [] ⟨0, 0⟩
    obtain ⟨fresh2, e2, l2, n2, s2, r2⟩ := applyItems_appends regTool .tool "Tool"
      request.replace_existing (request.tools.getD [])
      (applyItems regRes .resource "Resource" request.replace_existing
        (request.resources.getD []) st [] ⟨0, 0⟩).1
      (applyItems regRes .resource "Resource" request.replace_existing
        (request.resources.getD []) st [] ⟨0, 0⟩).2.1
      (applyItems regRes .resource "Resource" request.replace_existing
        (request.resources.getD []) st [] ⟨0, 0⟩).2.2
    simp only [bulk_update]
    simp only [e1, List.nil_append] at e2 s2 r2 ⊢
    simp only [e1, List.nil_append] at s1 r1
    refine ⟨?_, ?_, ?_, ?_⟩
    · simp [e2, l1, l2]
    · simp [e2, List.map_append, n1, n2]
    · simp [e2, s2, s1, List.countP_append]
    · simp [e2, r2, r1, List.countP_append]
  · intro batch hb
    fin_cases hb <;> exact ⟨by rfl, by rfl⟩

/-! Section: inject_config, the POST /inject-config endpoint of routes.py -/

/-- The six recognised values of the `type` discriminator of a raw resource
entry, as matched in `inject_config`. -/
inductive ResourceTag where
  | path
  | text
  | cli
  | source
  | callable
  | image
deriving DecidableEq, Repr

/-- Dispatch of the raw `type` field onto the closed set of resource tags;
any other value (a different string, or a missing field) is unknown. -/
def parseTag : Option String → Option ResourceTag
  | some "path" => some .path
  | some "text" => some .text
  | some "cli" => some .cli
  | some "source" => some .source
  | some "callable" => some .callable
  | some "image" => some .image
  | _ => none

/-- How the raw discriminator prints inside the unknown-type error message
("None" for a missing field, the bare string otherwise). -/
def tagText : Option String → String
  | none => "None"
  | some s => s

/-- A raw (not yet validated) resource entry of an `inject-config` payload:
its `type` field and an abstract remaining body. -/
structure RawResource (β : Type) where
  rtype : Option String
  body : β

/-- A raw `inject-config` payload: optional raw resource and tool mappings
in insertion order. -/
structure RawConfig (β γ : Type) where
  resources : Option (List (String × RawResource β))
  tools : Option (List (String × γ))

/-- The `HTTPException(status_code, detail)` raised by the route handlers. -/
structure HTTPFailure where
  status_code : Nat
  detail : String
deriving DecidableEq, Repr

/-- The `match resource_type:` block of `inject_config`: a known tag is
validated by the matching pydantic model (the `validate` collaborator), an
unknown tag raises `ValueError(f"Unknown resource type: ...")`. -/
def dispatch_validate {β ρ : Type}
    (validate : ResourceTag → RawResource β → Except String ρ)
    (raw : RawResource β) : Except String ρ :=
  match parseTag raw.rtype with
  | some tag => validate tag raw
  | none => .error ("Unknown resource type: " ++ tagText raw.rtype)

/-- The resource loop of `inject_config`: each entry is validated and then
immediately registered (with `replace=True`); the first exception stops the
loop, with every earlier registration left in place. -/
def injectResources {σ β ρ : Type}
    (validate : ResourceTag → RawResource β → Except String ρ)
    (regRes : RegFn σ ρ) (items : List (String × RawResource β)) (st : σ) :
    σ × Option String :=
  match items with
  | [] => (st, none)
  | (name, raw) :: rest =>
    match dispatch_validate validate raw with
    | .error e => (st, some e)
    | .ok v =>
      match regRes st name v true with
      | .error e => (st, some e)
      | .ok st2 => injectResources validate regRes rest st2

/-- The tool loop of `inject_config`: validate with `ToolConfig` and
register, stopping at the first exception. -/
def injectTools {σ γ τ : Type} (validateTool : γ → Except String τ)
    (regTool : RegFn σ τ) (items : List (String × γ)) (st : σ) :
    σ × Option String :=
  match items with
  | [] => (st, none)
  | (name, rawTool) :: rest =>
    match validateTool rawTool with
    | .error e => (st, some e)
    | .ok v =>
      match regTool st name v true with
      | .error e => (st, some e)
      | .ok st2 => injectTools validateTool regTool rest st2

/-- The `inject_config` endpoint body: process the resource entries then the
tool entries; the first exception anywhere is re-raised as
`HTTPException(400, str(e))`, with all registrations made before it kept; on
full success the fixed `SuccessResponse` is returned. -/
def inject_config {σ β ρ γ τ : Type}
    (validate : ResourceTag → RawResource β → Except String ρ)
    (regRes : RegFn σ ρ) (validateTool : γ → Except String τ)
    (regTool : RegFn σ τ) (config : RawConfig β γ) (st : σ) :
    σ × Except HTTPFailure ComponentResponse :=
  match injectResources validate regRes (config.resources.getD []) st with
  | (st1, some e) => (st1, .error ⟨400, e⟩)
  | (st1, none) =>
    match injectTools validateTool regTool (config.tools.getD []) st1 with
    | (st2, some e) => (st2, .error ⟨400, e⟩)
    | (st2, none) =>
      (st2, .ok (SuccessResponse "Config injected successfully" .tool "yaml_injection"))

/-- Demo resource validation for concrete `inject-config` payloads: a body
with the `ok` flag set validates to itself, otherwise pydantic raises. -/
def demoValidate : ResourceTag → RawResource DemoRes → Except String DemoRes :=
  fun _tag raw => if raw.body.ok then .ok raw.body else .error "validation failed"

/-- Demo tool validation (`ToolConfig.model_validate`). -/
def demoValidateTool : DemoRes → Except String DemoRes :=
  fun t => if t.ok then .ok t else .error "validation failed"

/-- If the first `pre` resource entries all validate and register
successfully (ending in state `st1`), processing `pre ++ more` continues
with `more` from `st1`. -/
theorem injectResources_append {σ β ρ : Type}
    (validate : ResourceTag → RawResource β → Except String ρ)
    (regRes : RegFn σ ρ) (pre more : List (String × RawResource β))
    (st st1 : σ) (h : injectResources validate regRes pre st = (st1, none)) :
    injectResources validate regRes (pre ++ more) st
      = injectResources validate regRes more st1 := by
  induction pre generalizing st with
  | nil =>
    simp only [injectResources] at h
    obtain ⟨rfl, -⟩ := Prod.mk.injEq .. ▸ h
    simp
  | cons hd tl ih =>
    obtain ⟨name, raw⟩ := hd
    cases hv : dispatch_validate validate raw with
    | error e =>
      simp only [injectResources, hv] at h
      exact absurd h (by simp)
    | ok v =>
      cases hr : regRes st name v true with
      | error e =>
        simp only [injectResources, hv, hr] at h
        exact absurd h (by simp)
      | ok st2 =>
        simp only [injectResources, List.cons_append, hv, hr] at h ⊢
        exact ih st2 h

/-- Claim C7 counterexample: a payload whose first resource entry is valid
and whose second has an unknown `type` discriminator fails with a 400
validation error, yet the first entry has already taken effect on the
registry — the call is not all-or-nothing. -/
theorem inject_config_counterexample :
    inject_config demoValidate demoRegisterResource demoValidateTool
        demoRegisterTool
        ⟨some [("good", ⟨some "text", ⟨true⟩⟩), ("bad", ⟨some "bogus", ⟨true⟩⟩)],
          none⟩ ([] : DemoState)
      = ([("good", ⟨true⟩)], .error ⟨400, "Unknown resource type: bogus"⟩)
    ∧ ([("good", (⟨true⟩ : DemoRes))] : DemoState) ≠ [] := by
  exact ⟨by rfl, by simp⟩

/-- If the first `pre` tool entries all validate and register successfully
(ending in state `st1`), processing `pre ++ more` continues with `more`
from `st1`. -/
theorem injectTools_append {σ γ τ : Type} (validateTool : γ → Except String τ)
    (regTool : RegFn σ τ) (pre more : List (String × γ)) (st st1 : σ)
    (h : injectTools validateTool regTool pre st = (st1, none)) :
    injectTools validateTool regTool (pre ++ more) st
      = injectTools validateTool regTool more st1 := by
  induction pre generalizing st with
  | nil =>
    simp only [injectTools] at h
    obtain ⟨rfl, -⟩ := Prod.mk.injEq .. ▸ h
    simp
  | cons hd tl ih =>
    obtain ⟨name, rawTool⟩ := hd
    cases hv : validateTool rawTool with
    | error e =>
      simp only [injectTools, hv] at h
      exact absurd h (by simp)
    | ok v =>
      cases hr : regTool st name v true with
      | error e =>
        simp only [injectTools, hv, hr] at h
        exact absurd h (by simp)
      | ok st2 =>
        simp only [injectTools, List.cons_append, hv, hr] at h ⊢
        exact ih st2 h

/-- Claim C7 (amended): on the first validation error of any item of the
payload — a resource entry whose dispatch-validation fails (an unknown
`type` discriminator included), or a tool entry whose ToolConfig validation
fails — `inject_config` fails with an HTTP 400 carrying that error and
nothing after the failing item is attempted; but the call is not
all-or-nothing: every item validated and registered before the failing one
remains applied to the registries. -/
theorem inject_config_first_error_keeps_prefix {σ β ρ γ τ : Type}
    (validate : ResourceTag → RawResource β → Except String ρ)
    (regRes : RegFn σ ρ) (validateTool : γ → Except String τ)
    (regTool : RegFn σ τ) (pre rest : List (String × RawResource β))
    (name : String) (bad : RawResource β) (tls : Option (List (String × γ)))
    (st st1 : σ) (e : String) (ress : Option (List (String × RawResource β)))
    (preT restT : List (String × γ)) (nameT : String) (badT : γ)
    (stA stB stC : σ) (eT : String) :
    (injectResources validate regRes pre st = (st1, none) →
      dispatch_validate validate bad = .error e →
      inject_config validate regRes validateTool regTool
          ⟨some (pre ++ (name, bad) :: rest), tls⟩ st
        = (st1, .error ⟨400, e⟩))
    ∧ (injectResources validate regRes (ress.getD []) stA = (stB, none) →
      injectTools validateTool regTool preT stB = (stC, none) →
      validateTool badT = .error eT →
      inject_config validate regRes validateTool regTool
          ⟨ress, some (preT ++ (nameT, badT) :: restT)⟩ stA
        = (stC, .error ⟨400, eT⟩)) := by
  constructor
  · intro h1 h2
    have hres : injectResources validate regRes (pre ++ (name, bad) :: rest) st
        = (st1, some e) := by
      rw [injectResources_append validate regRes pre _ st st1 h1]
      simp only [injectResources, h2]
    simp only [inject_config, Option.getD_some, hres]
  · intro h1 h2 h3
    have htools : injectTools validateTool regTool
        (preT ++ (nameT, badT) :: restT) stB = (stC, some eT) := by
      rw [injectTools_append validateTool regTool preT _ stB stC h2]
      simp only [injectTools, h3]
    simp only [inject_config, h1, Option.getD_some, htools]

/-- Witness for the amended C7 theorem at two concrete payloads: a valid
resource entry followed by an unknown-type resource entry yields a 400 with
the valid entry kept, and a payload whose resources all succeed but whose
second tool entry fails validation yields a 400 with the resource and the
first tool kept. -/
theorem inject_config_first_error_keeps_prefix_witness :
    inject_config demoValidate demoRegisterResource demoValidateTool
        demoRegisterTool
        ⟨some ([("good", ⟨some "text", ⟨true⟩⟩)]
            ++ ("worse", ⟨some "mystery", ⟨true⟩⟩) :: []),
          none⟩ ([] : DemoState)
      = ([("good", ⟨true⟩)], .error ⟨400, "Unknown resource type: mystery"⟩)
    ∧ inject_config demoValidate demoRegisterResource demoValidateTool
        demoRegisterTool
        ⟨some [("r1", ⟨some "text", ⟨true⟩⟩)],
          some ([("t1", DemoRes.mk true)] ++ ("t2", DemoRes.mk false) :: [])⟩
        ([] : DemoState)
      = ([("t1", ⟨true⟩), ("r1", ⟨true⟩)], .error ⟨400, "validation failed"⟩) := by
  have h := inject_config_first_error_keeps_prefix demoValidate
    demoRegisterResource demoValidateTool demoRegisterTool
    [("good", ⟨some "text", ⟨true⟩⟩)] [] "worse" ⟨some "mystery", ⟨true⟩⟩
    none ([] : DemoState) [("good", ⟨true⟩)] "Unknown resource type: mystery"
    (some [("r1", ⟨some "text", ⟨true⟩⟩)]) [("t1", DemoRes.mk true)] [] "t2"
    (DemoRes.mk false) ([] : DemoState) [("r1", ⟨true⟩)]
    [("t1", ⟨true⟩), ("r1", ⟨true⟩)] "validation failed"
  exact ⟨h.1 (by rfl) (by rfl), h.2 (by rfl) (by rfl) (by rfl)⟩

/-- Claim C10: whenever `inject_config` succeeds, the returned outcome is
the fixed `SuccessResponse` with `component_type = "tool"` and
`name = "yaml_injection"` — it never identifies the injected components. -/
theorem inject_config_fixed_identity {σ β ρ γ τ : Type}
    (validate : ResourceTag → RawResource β → Except String ρ)
    (regRes : RegFn σ ρ) (validateTool : γ → Except String τ)
    (regTool : RegFn σ τ) (config : RawConfig β γ) (st st2 : σ)
    (resp : ComponentResponse)
    (h : inject_config validate regRes validateTool regTool config st
      = (st2, .ok resp)) :
    resp = ⟨.success, "Config injected successfully", .tool, "yaml_injection"⟩ := by
  rcases hres : injectResources validate regRes (config.resources.getD []) st
    with ⟨st1, o1⟩
  cases o1 with
  | some e =>
    simp only [inject_config, hres] at h
    exact absurd h (by simp)
  | none =>
    rcases htl : injectTools validateTool regTool (config.tools.getD []) st1
      with ⟨stt, o2⟩
    cases o2 with
    | some e =>
      simp only [inject_config, hres, htl] at h
      exact absurd h (by simp)
    | none =>
      simp only [inject_config, hres, htl, SuccessResponse, Prod.mk.injEq,
        Except.ok.injEq] at h
      exact h.2.symm

/-- Witness for C10 at the empty payload: the success outcome is the fixed
tool/yaml_injection response. -/
theorem inject_config_fixed_identity_witness :
    SuccessResponse "Config injected successfully" .tool "yaml_injection"
      = ⟨.success, "Config injected successfully", .tool, "yaml_injection"⟩ :=
  inject_config_fixed_identity demoValidate demoRegisterResource
    demoValidateTool demoRegisterTool ⟨none, none⟩ ([] : DemoState) []
    (SuccessResponse "Config injected successfully" .tool "yaml_injection")
    (by rfl)

/-! Section: the DELETE resource and tool endpoints of routes.py -/

/-- Whether a registry dictionary (an association list with unique keys)
holds an entry under `name`. -/
def hasKey {α : Type} (st : List (String × α)) (name : String) : Bool :=
  st.any (fun p => p.1 == name)

/-- The `del registry[name]`: drop the entry under `name`. -/
def delKey {α : Type} (st : List (String × α)) (name : String) :
    List (String × α) :=
  st.eraseP (fun p => p.1 == name)

/-- The `remove_resource` endpoint body: `del` the entry and return success; a
missing name (`KeyError`) becomes `HTTPException(404, ...)`, never an
unhandled fault (the function is total). -/
def remove_resource {α : Type} (st : List (String × α)) (name : String) :
    List (String × α) × Except HTTPFailure ComponentResponse :=
  if hasKey st name then
    (delKey st name,
      .ok (SuccessResponse ("Resource " ++ name ++ " removed") .resource name))
  else
    (st, .error ⟨404, "Resource " ++ name ++ " not found"⟩)

/-- The `remove_tool` endpoint body, same shape as `remove_resource`. -/
def remove_tool {α : Type} (st : List (String × α)) (name : String) :
    List (String × α) × Except HTTPFailure ComponentResponse :=
  if hasKey st name then
    (delKey st name,
      .ok (SuccessResponse ("Tool " ++ name ++ " removed") .tool name))
  else
    (st, .error ⟨404, "Tool " ++ name ++ " not found"⟩)

/-- Deleting a key from a registry with unique keys removes it: a second
lookup of the same name finds nothing. -/
theorem hasKey_delKey {α : Type} (st : List (String × α)) (name : String)
    (hnd : (st.map Prod.fst).Nodup) : hasKey (delKey st name) name = false := by
  induction st with
  | nil => rfl
  | cons hd tl ih =>
    obtain ⟨k, v⟩ := hd
    simp only [List.map_cons, List.nodup_cons] at hnd
    by_cases hk : k = name
    · subst hk
      have hdel : delKey ((k, v) :: tl) k = tl := by
        simp [delKey, List.eraseP_cons]
      rw [hdel]
      simp only [hasKey, List.any_eq_false]
      intro x hx
      simp only [beq_iff_eq]
      intro hxk
      exact hnd.1 (hxk ▸ List.mem_map_of_mem Prod.fst hx)
    · have hdel : delKey ((k, v) :: tl) name = (k, v) :: delKey tl name := by
        simp [delKey, List.eraseP_cons, hk]
      rw [hdel]
      simp only [hasKey, List.any_cons]
      simp only [hasKey] at ih
      simp [hk, ih hnd.2]

/-- Claim C9: removing a registered component twice yields success for the
first call and a 404 not-found outcome for the second, for resources and
tools alike; both calls return structured outcomes (the handlers are total
functions, so no unhandled fault is possible). -/
theorem remove_component_twice {α : Type} (st : List (String × α))
    (name : String) (hnd : (st.map Prod.fst).Nodup)
    (hmem : hasKey st name = true) :
    (remove_resource st name).2
        = .ok (SuccessResponse ("Resource " ++ name ++ " removed") .resource name)
    ∧ (remove_resource (remove_resource st name).1 name).2
        = .error ⟨404, "Resource " ++ name ++ " not found"⟩
    ∧ (remove_tool st name).2
        = .ok (SuccessResponse ("Tool " ++ name ++ " removed") .tool name)
    ∧ (remove_tool (remove_tool st name).1 name).2
        = .error ⟨404, "Tool " ++ name ++ " not found"⟩ := by
  have hgone := hasKey_delKey st name hnd
  refine ⟨?_, ?_, ?_, ?_⟩ <;>
    simp [remove_resource, remove_tool, hmem, hgone]

/-- Witness for C9 at a one-entry registry. -/
theorem remove_component_twice_witness :
    (remove_resource [("r1", DemoRes.mk true)] "r1").2
        = .ok (SuccessResponse "Resource r1 removed" .resource "r1")
    ∧ (remove_resource (remove_resource [("r1", DemoRes.mk true)] "r1").1 "r1").2
        = .error ⟨404, "Resource r1 not found"⟩ := by
  have h := remove_component_twice [("r1", DemoRes.mk true)] "r1"
    (by simp) (by rfl)
  exact ⟨h.1, h.2.1⟩

/-! Section: the WebSocket endpoint of routes.py -/

/-- The `GET /components` snapshot: the registered names per kind. -/
structure ComponentsSnapshot where
  resources : List String
  tools : List String
  prompts : List String
deriving DecidableEq, Repr

/-- The `type` field of an inbound WebSocket message. -/
inductive WsMsgType where
  | update
  | query
  | error
deriving DecidableEq, Repr

/-- The `data` field of an inbound message: either a JSON dict (together
with the outcome of validating it as a `ConfigUpdateRequest`, which the
`update` branch performs) or some non-dict value. -/
inductive WsInData (ρ τ : Type) where
  | dict (parse : Except String (ConfigUpdateRequest ρ τ))
  | nonDict

/-- A validated inbound WebSocket message. -/
structure WsMessage (ρ τ : Type) where
  type : WsMsgType
  data : WsInData ρ τ
  request_id : Option String

/-- The `type` field of an outbound WebSocket envelope. -/
inductive WsRespType where
  | success
  | error
  | update
deriving DecidableEq, Repr

/-- The loosely-typed `data` field of an outbound envelope: it can carry a
full `BulkUpdateResponse` report (as a dict), a bare list of per-item
outcomes, a components snapshot, or the empty dict. -/
inductive WsOutData where
  | report (r : BulkUpdateResponse)
  | results (rs : List ComponentResponse)
  | components (c : ComponentsSnapshot)
  | empty
deriving DecidableEq, Repr

/-- The outbound `WebSocketResponse` envelope. -/
structure WsResponse where
  type : WsRespType
  data : WsOutData
  request_id : Option String
  message : Option String
deriving DecidableEq, Repr

/-- Handling of one validated WebSocket message (the body of the receive
loop of `websocket_endpoint`): `update` with a dict payload that validates
runs `bulk_update` and replies with a success envelope whose data is the
results list of the report; a payload that fails validation hits the generic
exception path, which replies with an error envelope; a non-dict `update`
payload is silently skipped; `query` replies with the components snapshot;
`error` is only logged. Returns the new registry state and the reply sent
back on the connection, if any. -/
def websocket_handle {σ ρ τ : Type} (regRes : RegFn σ ρ) (regTool : RegFn σ τ)
    (listComps : σ → ComponentsSnapshot) (msg : WsMessage ρ τ) (st : σ) :
    σ × Option WsResponse :=
  match msg.type with
  | .update =>
    match msg.data with
    | .dict parse =>
      match parse with
      | .ok req =>
        let out := bulk_update regRes regTool req st
        (out.1, some ⟨.success, .results out.2.results, msg.request_id,
          some "Components updated successfully"⟩)
      | .error _ =>
        (st, some ⟨.error, .empty, msg.request_id, some "Operation failed"⟩)
    | .nonDict => (st, none)
  | .query => (st, some ⟨.success, .components (listComps st), msg.request_id, none⟩)
  | .error => (st, none)

/-- Demo components snapshot for concrete WebSocket scenarios. -/
def demoListComps : DemoState → ComponentsSnapshot :=
  fun st => ⟨st.map Prod.fst, [], []⟩

/-- Claim C8 counterexample: for a concrete valid `update` message the reply
envelope data field is the bare results list of the MutationReport, not the
MutationReport itself — the aggregate summary is not sent back. -/
theorem websocket_update_counterexample :
    (websocket_handle demoRegisterResource demoRegisterTool demoListComps
        ⟨.update, .dict (.ok ⟨some [("r1", ⟨true⟩)], none, true⟩), some "rid-1"⟩
        ([] : DemoState)).2
      = some ⟨.success,
          .results [SuccessResponse "Resource r1 registered" .resource "r1"],
          some "rid-1", some "Components updated successfully"⟩
    ∧ WsOutData.results [SuccessResponse "Resource r1 registered" .resource "r1"]
      ≠ WsOutData.report (bulk_update demoRegisterResource demoRegisterTool
          ⟨some [("r1", ⟨true⟩)], none, true⟩ ([] : DemoState)).2 := by
  exact ⟨by rfl, by simp⟩

/-- Claim C8 (amended): an `update` message whose dict payload validates as
a component-update request applies `bulk_update` semantics to the registries
and replies on the same connection with a success envelope that carries back
the request id of the message and, as data, the per-item `results` list of the
MutationReport (the aggregate summary is not included in the reply). -/
theorem websocket_update_success_envelope {σ ρ τ : Type} (regRes : RegFn σ ρ)
    (regTool : RegFn σ τ) (listComps : σ → ComponentsSnapshot)
    (req : ConfigUpdateRequest ρ τ) (rid : Option String) (st : σ) :
    websocket_handle regRes regTool listComps ⟨.update, .dict (.ok req), rid⟩ st
      = ((bulk_update regRes regTool req st).1,
        some ⟨.success, .results (bulk_update regRes regTool req st).2.results,
          rid, some "Components updated successfully"⟩) := rfl

/-! Section: the notification dispatcher, the notify methods of server.py -/

/-- A Python exception, distinguished by whether it is a `RuntimeError`
(the type `current_session` raises when no request context is active). -/
inductive PyExc where
  | runtimeError (msg : String)
  | otherExc (msg : String)
deriving DecidableEq, Repr

/-- A protocol send the dispatcher can issue on the current session. -/
inductive SendKind where
  | resourceListChanged
  | resourceUpdated (uri : String)
  | promptListChanged
  | toolListChanged
  | progressNotification (token : String)
  | logMessage (text : String)
deriving DecidableEq, Repr

/-- Log levels used by the notify paths. -/
inductive LogLevel where
  | debug
  | errorLevel
deriving DecidableEq, Repr

/-- The dispatcher environment: whether `server.request_context` has an
active session, the URIs present in the `_subscriptions` table, and the
outcome of awaiting each send (`none` = delivers, `some e` = raises `e`). -/
structure SessionEnv where
  hasSession : Bool
  subscriptions : List String
  sendResult : SendKind → Option PyExc

/-- The observable effects of one `notify*` call: the sends awaited inline
inside the call, the sends wrapped as tracked tasks via `_create_task`, the
log records emitted, and the exception propagated to the caller, if any. -/
structure NotifyEffects where
  inlineSends : List SendKind
  scheduled : List SendKind
  logs : List (LogLevel × String)
  raised : Option PyExc
deriving DecidableEq, Repr

/-- The `notify_resource_list_changed`: awaits
`current_session.send_resource_list_changed()` inline; a `RuntimeError`
(no active request context) is logged at debug level, any other exception at
error level, and nothing propagates. -/
def notify_resource_list_changed (env : SessionEnv) : NotifyEffects :=
  if env.hasSession then
    match env.sendResult .resourceListChanged with
    | none =>
      { inlineSends := [.resourceListChanged], scheduled := [], logs := [],
        raised := none }
    | some (.runtimeError _) =>
      { inlineSends := [.resourceListChanged], scheduled := [],
        logs := [(.debug, "No active session for notification")], raised := none }
    | some (.otherExc _) =>
      { inlineSends := [.resourceListChanged], scheduled := [],
        logs := [(.errorLevel, "Failed to send resource list change notification")],
        raised := none }
  else
    { inlineSends := [], scheduled := [],
      logs := [(.debug, "No active session for notification")], raised := none }

/-- The `notify_prompt_list_changed`: wraps
`current_session.send_prompt_list_changed()` in a tracked task via
`_create_task`; with no session, evaluating `current_session` raises
`RuntimeError` before any task exists, logged at debug level. -/
def notify_prompt_list_changed (env : SessionEnv) : NotifyEffects :=
  if env.hasSession then
    { inlineSends := [], scheduled := [.promptListChanged], logs := [],
      raised := none }
  else
    { inlineSends := [], scheduled := [],
      logs := [(.debug, "No active session for notification")], raised := none }

/-- The `notify_tool_list_changed`: same shape as the prompt variant. -/
def notify_tool_list_changed (env : SessionEnv) : NotifyEffects :=
  if env.hasSession then
    { inlineSends := [], scheduled := [.toolListChanged], logs := [],
      raised := none }
  else
    { inlineSends := [], scheduled := [],
      logs := [(.debug, "No active session for notification")], raised := none }

/-- The `notify_resource_change(uri)`: only when `uri` is in `_subscriptions`
does it await `current_session.send_resource_updated(uri)` inline; every
exception there — the no-session `RuntimeError` included — is caught by the
single `except Exception` and logged at error level. With no table entry the
body is skipped entirely. -/
def notify_resource_change (uri : String) (env : SessionEnv) : NotifyEffects :=
  if env.subscriptions.contains uri then
    if env.hasSession then
      match env.sendResult (.resourceUpdated uri) with
      | none =>
        { inlineSends := [.resourceUpdated uri], scheduled := [], logs := [],
          raised := none }
      | some _ =>
        { inlineSends := [.resourceUpdated uri], scheduled := [],
          logs := [(.errorLevel,
            "Failed to notify subscribers about resource change: " ++ uri)],
          raised := none }
    else
      { inlineSends := [], scheduled := [],
        logs := [(.errorLevel,
          "Failed to notify subscribers about resource change: " ++ uri)],
        raised := none }
  else
    { inlineSends := [], scheduled := [], logs := [], raised := none }

/-- The `notify_progress`: wraps the progress send (and, when a description is
given, a secondary log-message send) as tracked tasks; with no session the
`RuntimeError` from `current_session` is caught by `except Exception` and
logged at error level. -/
def notify_progress (token : String) (description : Option String)
    (env : SessionEnv) : NotifyEffects :=
  if env.hasSession then
    { inlineSends := [],
      scheduled := .progressNotification token ::
        (match description with
          | some d => [.logMessage d]
          | none => []),
      logs := [], raised := none }
  else
    { inlineSends := [], scheduled := [],
      logs := [(.errorLevel, "Failed to send progress notification")],
      raised := none }

/-- Claim C3: the three list-changed `notify*` calls never raise to their
caller in any environment; with no attached session each completes as a
success with a single debug-level log and attempts no send; and a delivery
failure surfacing inside a call (the inline send of
`notify_resource_list_changed` raising a non-RuntimeError) is logged at
error level and swallowed. -/
theorem notify_no_session_never_raises (env : SessionEnv) :
    ((notify_resource_list_changed env).raised = none
      ∧ (notify_prompt_list_changed env).raised = none
      ∧ (notify_tool_list_changed env).raised = none)
    ∧ (env.hasSession = false →
        notify_resource_list_changed env
            = ⟨[], [], [(.debug, "No active session for notification")], none⟩
          ∧ notify_prompt_list_changed env
            = ⟨[], [], [(.debug, "No active session for notification")], none⟩
          ∧ notify_tool_list_changed env
            = ⟨[], [], [(.debug, "No active session for notification")], none⟩)
    ∧ (∀ m : String, env.hasSession = true →
        env.sendResult .resourceListChanged = some (.otherExc m) →
        notify_resource_list_changed env
          = ⟨[.resourceListChanged], [],
              [(.errorLevel, "Failed to send resource list change notification")],
              none⟩) := by
  refine ⟨⟨?_, ?_, ?_⟩, ?_, ?_⟩
  · unfold notify_resource_list_changed
    split
    · split <;> rfl
    · rfl
  · unfold notify_prompt_list_changed
    split <;> rfl
  · unfold notify_tool_list_changed
    split <;> rfl
  · intro h
    unfold notify_resource_list_changed notify_prompt_list_changed
      notify_tool_list_changed
    rw [h]
    exact ⟨rfl, rfl, rfl⟩
  · intro m hs hr
    unfold notify_resource_list_changed
    rw [hs, hr]
    rfl

/-- A demo environment with no attached session. -/
def envNoSession : SessionEnv :=
  ⟨false, [], fun _ => none⟩

/-- A demo environment with an attached session, one subscribed URI, and
sends that always deliver. -/
def envWithSession : SessionEnv :=
  ⟨true, ["text://doc1"], fun _ => none⟩

/-- Witness for C3: with no session attached, the resource list-changed call
raises nothing and the prompt list-changed call is exactly a debug-logged
success. -/
theorem notify_no_session_never_raises_witness :
    (notify_resource_list_changed envNoSession).raised = none
    ∧ notify_prompt_list_changed envNoSession
        = ⟨[], [], [(.debug, "No active session for notification")], none⟩ :=
  ⟨(notify_no_session_never_raises envNoSession).1.1,
    ((notify_no_session_never_raises envNoSession).2.1 rfl).2.1⟩

/-- Claim C6: for a URI with no entry in the subscription table,
`notify_resource_change` is a complete no-op — no send is awaited or
scheduled, nothing is logged, nothing raises. -/
theorem notify_resource_change_unsubscribed (uri : String) (env : SessionEnv)
    (h : env.subscriptions.contains uri = false) :
    notify_resource_change uri env = ⟨[], [], [], none⟩ := by
  unfold notify_resource_change
  rw [h]
  rfl

/-- Witness for C6 at the scenario URI of the spec against an environment with a
live session but an empty subscription table. -/
theorem notify_resource_change_unsubscribed_witness :
    notify_resource_change "text://doc1" ⟨true, [], fun _ => none⟩
      = ⟨[], [], [], none⟩ :=
  notify_resource_change_unsubscribed "text://doc1"
    ⟨true, [], fun _ => none⟩ (by rfl)

/-- Claim C4 counterexample: with an attached session,
`notify_resource_list_changed` awaits its protocol send inline and schedules
no tracked task at all — the send is not wrapped as a Task and the call does
not return at scheduling time. -/
theorem notify_resource_list_changed_inline_counterexample :
    (notify_resource_list_changed envWithSession).scheduled = []
    ∧ (notify_resource_list_changed envWithSession).inlineSends
      = [.resourceListChanged] := by
  exact ⟨rfl, rfl⟩

/-- Claim C4 (amended): with an attached session,
`notify_prompt_list_changed`, `notify_tool_list_changed` and
`notify_progress` wrap their protocol sends as tracked tasks and await
nothing inline, so those calls return once the task is scheduled; but
`notify_resource_list_changed` and (for a subscribed URI)
`notify_resource_change` instead await their send inline and create no
task. -/
theorem notify_send_modes (env : SessionEnv) (uri token : String)
    (description : Option String) (hs : env.hasSession = true)
    (hsub : env.subscriptions.contains uri = true)
    (hok : env.sendResult .resourceListChanged = none)
    (hok2 : env.sendResult (.resourceUpdated uri) = none) :
    (notify_prompt_list_changed env).scheduled = [.promptListChanged]
    ∧ (notify_prompt_list_changed env).inlineSends = []
    ∧ (notify_tool_list_changed env).scheduled = [.toolListChanged]
    ∧ (notify_tool_list_changed env).inlineSends = []
    ∧ (notify_progress token description env).inlineSends = []
    ∧ (notify_progress token description env).scheduled
      = .progressNotification token ::
          (match description with
            | some d => [SendKind.logMessage d]
            | none => [])
    ∧ (notify_resource_list_changed env).inlineSends = [.resourceListChanged]
    ∧ (notify_resource_list_changed env).scheduled = []
    ∧ (notify_resource_change uri env).inlineSends = [.resourceUpdated uri]
    ∧ (notify_resource_change uri env).scheduled = [] := by
  unfold notify_prompt_list_changed notify_tool_list_changed notify_progress
    notify_resource_list_changed notify_resource_change
  rw [hs, hsub, hok, hok2]
  simp

/-- Witness for the amended C4 theorem in the demo session environment. -/
theorem notify_send_modes_witness :
    (notify_prompt_list_changed envWithSession).scheduled = [.promptListChanged]
    ∧ (notify_resource_list_changed envWithSession).inlineSends
      = [.resourceListChanged] := by
  have h := notify_send_modes envWithSession "text://doc1" "tok" none
    rfl (by rfl) rfl rfl
  exact ⟨h.1, h.2.2.2.2.2.2.1⟩

/-! Section: registry observers, from observers.py -/

/-- A registry change event as delivered to the observer handlers
(`added`/`removed`/`changed`, each carrying the key and the value). -/
inductive RegEvent (α : Type) where
  | added (key : String) (value : α)
  | removed (key : String) (value : α)
  | changed (key : String) (value : α)

/-- A call made on the dispatcher by an observer handler. -/
inductive DispatchCall where
  | resourceListChanged
  | resourceChanged (uri : String)
  | promptListChanged
  | toolListChanged
deriving DecidableEq, Repr

/-- The `ResourceObserver._handle_resource_added`. -/
def handle_resource_added {α : Type} (_key : String) (_value : α) : DispatchCall :=
  .resourceListChanged

/-- The `ResourceObserver._handle_resource_removed`. -/
def handle_resource_removed {α : Type} (_key : String) (_value : α) : DispatchCall :=
  .resourceListChanged

/-- The `ResourceObserver._handle_resource_modified`: derive the URI of the resource
through the resource-loader lookup (`uriFor`, standing for
`runtime.get_resource_loader(resource).create_uri(name=key)`) and call
`notify_resource_change(uri)`. -/
def handle_resource_modified {α : Type} (uriFor : String → α → String)
    (key : String) (value : α) : DispatchCall :=
  .resourceChanged (uriFor key value)

/-- The resource observer wiring of the three event handlers. -/
def resourceObserverHandle {α : Type} (uriFor : String → α → String) :
    RegEvent α → DispatchCall
  | .added k v => handle_resource_added k v
  | .removed k v => handle_resource_removed k v
  | .changed k v => handle_resource_modified uriFor k v

/-- The prompt observer wiring: all three handlers call
`notify_prompt_list_changed`. -/
def promptObserverHandle {α : Type} : RegEvent α → DispatchCall
  | .added _ _ => .promptListChanged
  | .removed _ _ => .promptListChanged
  | .changed _ _ => .promptListChanged

/-- The tool observer wiring: all three handlers call
`notify_tool_list_changed`. -/
def toolObserverHandle {α : Type} : RegEvent α → DispatchCall
  | .added _ _ => .toolListChanged
  | .removed _ _ => .toolListChanged
  | .changed _ _ => .toolListChanged

/-- Processing of an event sequence by an observer: each event fires its
handler, which wraps the one resulting dispatcher call via
`server._create_task`, appending it to the scheduled calls of the server. -/
def observeEvents {α : Type} (handler : RegEvent α → DispatchCall)
    (events : List (RegEvent α)) (scheduledCalls : List DispatchCall) :
    List DispatchCall :=
  match events with
  | [] => scheduledCalls
  | e :: rest => observeEvents handler rest (scheduledCalls ++ [handler e])

/-- The dispatcher-call kind the claim says each resource event implies. -/
def claimedResourceCall {α : Type} (uriFor : String → α → String) :
    RegEvent α → DispatchCall
  | .added _ _ => .resourceListChanged
  | .removed _ _ => .resourceListChanged
  | .changed k v => .resourceChanged (uriFor k v)

/-- The dispatcher-call kind the claim says each prompt event implies. -/
def claimedPromptCall {α : Type} : RegEvent α → DispatchCall :=
  fun _ => .promptListChanged

/-- The dispatcher-call kind the claim says each tool event implies. -/
def claimedToolCall {α : Type} : RegEvent α → DispatchCall :=
  fun _ => .toolListChanged

/-- Processing events accumulates exactly the calls of the handler, in event
order, after whatever was already scheduled. -/
theorem observeEvents_eq_append_map {α : Type}
    (handler : RegEvent α → DispatchCall) (events : List (RegEvent α))
    (scheduledCalls : List DispatchCall) :
    observeEvents handler events scheduledCalls
      = scheduledCalls ++ events.map handler := by
  induction events generalizing scheduledCalls with
  | nil => simp [observeEvents]
  | cons e rest ih =>
    simp [observeEvents, ih]

/-- Claim C5: for every event sequence, each observer makes exactly one
dispatcher call per event, in event order, with the kind the claim assigns
to that event: list-changed of the component kind of the observer for
added/removed (and for every prompt/tool event), and resource-changed keyed
by the loader-derived URI for a resource change. -/
theorem observer_calls_match_events {α : Type}
    (uriFor : String → α → String) (events : List (RegEvent α)) :
    observeEvents (resourceObserverHandle uriFor) events []
        = events.map (claimedResourceCall uriFor)
    ∧ (observeEvents (resourceObserverHandle uriFor) events []).length
        = events.length
    ∧ observeEvents promptObserverHandle events []
        = events.map claimedPromptCall
    ∧ (observeEvents promptObserverHandle events []).length = events.length
    ∧ observeEvents toolObserverHandle events [] = events.map claimedToolCall
    ∧ (observeEvents toolObserverHandle events []).length = events.length := by
  have hres : ∀ e : RegEvent α,
      resourceObserverHandle uriFor e = claimedResourceCall uriFor e := by
    intro e
    cases e <;> rfl
  have hpr : ∀ e : RegEvent α, promptObserverHandle e = claimedPromptCall e := by
    intro e
    cases e <;> rfl
  have htl : ∀ e : RegEvent α, toolObserverHandle e = claimedToolCall e := by
    intro e
    cases e <;> rfl
  rw [observeEvents_eq_append_map, observeEvents_eq_append_map,
    observeEvents_eq_append_map]
  refine ⟨?_, by simp, ?_, by simp, ?_, by simp⟩
  · simpa using List.map_congr_left fun e _ => hres e
  · simpa using List.map_congr_left fun e _ => hpr e
  · simpa using List.map_congr_left fun e _ => htl e

/-! Section: the shutdown sequence of LLMLingServer in server.py -/

/-- The lifecycle state of one asyncio task. -/
inductive TaskStatus where
  | running
  | completed
  | cancelled
deriving DecidableEq, Repr

/-- A task is terminal when it is completed or cancelled. -/
def TaskStatus.terminal : TaskStatus → Bool
  | .running => false
  | .completed => true
  | .cancelled => true

/-- Which shutdown steps raise in a given run (`none` = the step returns
normally). -/
structure ShutdownEnv where
  injectionStopExc : Option PyExc
  transportShutdownExc : Option PyExc
  removeObserversExc : Option PyExc
  runtimeShutdownExc : Option PyExc

/-- The orchestrator state touched by `shutdown`: the collaborator flags,
the tracked-task id set `_tasks`, and the status of every task id. -/
structure OrchState where
  hasInjection : Bool
  injectionRunning : Bool
  transportUp : Bool
  observersAttached : Bool
  runtimeUp : Bool
  tracked : List Nat
  taskStatus : Nat → TaskStatus

/-- The `task.cancel()` on every tracked task followed by
`asyncio.gather(..., return_exceptions=True)`: when gather returns, every
tracked task has resolved — a still-running one is now cancelled, an already
finished one keeps its status. -/
def cancelAndGather (taskStatus : Nat → TaskStatus) (ids : List Nat) :
    Nat → TaskStatus :=
  fun i =>
    if ids.contains i then
      match taskStatus i with
      | .running => .cancelled
      | s => s
    else taskStatus i

/-- The `try` block of `shutdown`: stop the injection server if present,
shut the transport down, cancel and await all pending tracked tasks and
clear the set, detach the observers, shut the runtime down; the first step
that raises aborts the rest and the exception propagates. -/
def shutdownTry (env : ShutdownEnv) (st : OrchState) :
    OrchState × Option PyExc :=
  match (if st.hasInjection then env.injectionStopExc else none) with
  | some e => (st, some e)
  | none =>
    let st1 := { st with
      injectionRunning := if st.hasInjection then false else st.injectionRunning }
    match env.transportShutdownExc with
    | some e => (st1, some e)
    | none =>
      let st2 := { st1 with transportUp := false }
      let st3 := if st2.tracked.isEmpty then st2
        else { st2 with
          taskStatus := cancelAndGather st2.taskStatus st2.tracked,
          tracked := [] }
      match env.removeObserversExc with
      | some e => (st3, some e)
      | none =>
        let st4 := { st3 with observersAttached := false }
        match env.runtimeShutdownExc with
        | some e => (st4, some e)
        | none => ({ st4 with runtimeUp := false }, none)

/-- The `shutdown`: run the `try` block, then — in the `finally` block, whether
or not a step raised — clear the tracked-task set as the terminal step. -/
def shutdown (env : ShutdownEnv) (st : OrchState) :
    OrchState × Option PyExc :=
  ({ (shutdownTry env st).1 with tracked := [] }, (shutdownTry env st).2)

/-- When the `try` block of shutdown runs to completion, the tracked set has
been cleared inside it and every initially tracked task is terminal. -/
theorem shutdownTry_none_terminal (env : ShutdownEnv) (st : OrchState)
    (h : (shutdownTry env st).2 = none) :
    (shutdownTry env st).1.tracked = []
    ∧ ∀ i ∈ st.tracked, ((shutdownTry env st).1.taskStatus i).terminal = true := by
  cases hinjx : (if st.hasInjection then env.injectionStopExc else none) with
  | some e =>
    simp only [shutdownTry, hinjx] at h
    exact absurd h (by simp)
  | none =>
    cases htr : env.transportShutdownExc with
    | some e =>
      simp only [shutdownTry, hinjx, htr] at h
      exact absurd h (by simp)
    | none =>
      cases hob : env.removeObserversExc with
      | some e =>
        simp only [shutdownTry, hinjx, htr, hob] at h
        exact absurd h (by simp)
      | none =>
        cases hrt : env.runtimeShutdownExc with
        | some e =>
          simp only [shutdownTry, hinjx, htr, hob, hrt] at h
          exact absurd h (by simp)
        | none =>
          constructor
          · simp only [shutdownTry, hinjx, htr, hob, hrt]
            by_cases hemp : st.tracked.isEmpty
            · simp [hemp, List.isEmpty_iff.mp hemp]
            · simp [hemp]
          · intro i hi
            simp only [shutdownTry, hinjx, htr, hob, hrt]
            by_cases hemp : st.tracked.isEmpty
            · rw [List.isEmpty_iff.mp hemp] at hi
              simp at hi
            · have hcontains : st.tracked.contains i := List.elem_eq_true_of_mem hi
              simp only [hemp, if_false, Bool.false_eq_true]
              simp only [cancelAndGather, hcontains, if_true]
              cases st.taskStatus i <;> rfl

/-- Claim C2: after `shutdown` resolves, the tracked-task set is empty in
every run — the clearing happens in the `finally` block even when an earlier
step raised — and when no step raised, every task tracked at the moment of
the call has reached a terminal (completed-or-cancelled) state. -/
theorem shutdown_clears_and_terminates (env : ShutdownEnv) (st : OrchState) :
    (shutdown env st).1.tracked = []
    ∧ ((shutdown env st).2 = none →
        ∀ i ∈ st.tracked, ((shutdown env st).1.taskStatus i).terminal = true) := by
  constructor
  · rfl
  · intro h i hi
    have h2 : (shutdownTry env st).2 = none := h
    have := (shutdownTry_none_terminal env st h2).2 i hi
    exact this

/-- A shutdown run where no step raises. -/
def demoShutdownEnv : ShutdownEnv :=
  ⟨none, none, none, none⟩

/-- An orchestrator state with two in-flight tracked tasks. -/
def demoOrchState : OrchState :=
  ⟨true, true, true, true, true, [0, 1], fun _ => .running⟩

/-- Witness for C2: in a clean run with two in-flight tasks, the tracked set
ends empty and task 0 ends terminal. -/
theorem shutdown_clears_and_terminates_witness :
    (shutdown demoShutdownEnv demoOrchState).1.tracked = []
    ∧ ((shutdown demoShutdownEnv demoOrchState).1.taskStatus 0).terminal = true :=
  ⟨(shutdown_clears_and_terminates demoShutdownEnv demoOrchState).1,
    (shutdown_clears_and_terminates demoShutdownEnv demoOrchState).2 rfl 0
      (by simp [demoOrchState])⟩

/-- Witness for C1 at the mixed demo batch with the invalid entry in the
middle. -/
theorem bulk_update_report_correct_witness :
    (bulk_update demoRegisterResource demoRegisterTool
        ⟨some [("r1", DemoRes.mk true), ("bad", DemoRes.mk false),
          ("r2", DemoRes.mk true)], none, true⟩ ([] : DemoState)).2.summary
      = ⟨2, 1⟩ :=
  ((bulk_update_report_correct demoRegisterResource demoRegisterTool
      ⟨some [("r1", DemoRes.mk true), ("bad", DemoRes.mk false),
        ("r2", DemoRes.mk true)], none, true⟩ ([] : DemoState)).2
    [("r1", DemoRes.mk true), ("bad", DemoRes.mk false), ("r2", DemoRes.mk true)]
    (by simp)).1
